import Mathlib

/-!
Shallow embedding of the moontvplus banner / danmaku front-end core:

* `src/lib/danmaku/selection-memory.ts` — session-storage backed recall of
  danmaku source / episode selections (save, get, clear).
* the trending-banner route handler (`GET`, `parseTXBannerData`) with its
  per-source in-memory TTL cache.
* the banner carousel (`goToNext` / `goToPrevious` index arithmetic, and the
  `fetchTrending` localStorage read-through cache).

Browser storage is modelled as an association list of string keys to string
values; JavaScript numbers appearing in this code are integers, modelled as
`Int`; `Number.prototype.toString` and `parseInt(s, 10)` are modelled
explicitly so that the validation performed by the readers is faithful.
-/

namespace MoonTV

/-! ### JavaScript decimal printing and `parseInt` -/

/-- Fuel-driven decimal printer (structural recursion on the fuel so that it
reduces definitionally). With fuel `> n` it yields the decimal digits of `n`,
most significant first. -/
def natDigitsAux : Nat → Nat → List Char
  | 0, _ => []
  | fuel + 1, n =>
      if n < 10 then [Char.ofNat (48 + n)]
      else natDigitsAux fuel (n / 10) ++ [Char.ofNat (48 + n % 10)]

/-- Decimal digit characters of a natural number, most significant first
(the digits `Number.prototype.toString` produces). -/
def natDigits (n : Nat) : List Char :=
  natDigitsAux (n + 1) n

/-- `Number.prototype.toString` for an integral JavaScript number:
decimal digits with a leading minus sign for negatives. -/
def jsNumToString (i : Int) : String :=
  if i < 0 then String.mk ('-' :: natDigits i.natAbs)
  else String.mk (natDigits i.natAbs)

/-- Value of a list of decimal digit characters, most significant first. -/
def digitsVal (cs : List Char) : Nat :=
  cs.foldl (fun acc c => acc * 10 + (c.toNat - 48)) 0

/-- `parseInt(s, 10)`: skip leading whitespace, read an optional sign and the
longest prefix of decimal digits; `none` models `NaN` (no digits found).
Trailing garbage is ignored, as in JavaScript. -/
def jsParseInt (s : String) : Option Int :=
  match s.data.dropWhile Char.isWhitespace with
  | [] => none
  | c :: rest =>
      if c = '-' then
        let ds := rest.takeWhile Char.isDigit
        if ds.isEmpty then none else some (-(digitsVal ds : Int))
      else if c = '+' then
        let ds := rest.takeWhile Char.isDigit
        if ds.isEmpty then none else some (digitsVal ds)
      else
        let ds := (c :: rest).takeWhile Char.isDigit
        if ds.isEmpty then none else some (digitsVal ds)

/-! ### Browser storage (`sessionStorage`) as an association list -/

/-- A browser storage object: a finite map from string keys to string values,
as an association list (`sessionStorage` / `localStorage`). -/
def Store := List (String × String)

/-- `storage.getItem(key)`. -/
def Store.getItem : Store → String → Option String
  | [], _ => none
  | (k, v) :: rest, key => if k = key then some v else Store.getItem rest key

/-- `storage.setItem(key, val)`. -/
def Store.setItem : Store → String → String → Store
  | [], key, val => [(key, val)]
  | (k, v) :: rest, key, val =>
      if k = key then (k, val) :: rest else (k, v) :: Store.setItem rest key val

/-- `storage.removeItem(key)`. -/
def Store.removeItem (st : Store) (key : String) : Store :=
  st.filter (fun kv => kv.1 != key)

/-- `String.prototype.startsWith`: is `p` a prefix of `s`? -/
def jsStartsWith (s p : String) : Bool :=
  p.data.isPrefixOf s.data

/-! ### Selection memory (`selection-memory.ts`) -/

/-- `STORAGE_KEY_PREFIX` in `selection-memory.ts`
(name adjusted; the source constant is the same string). -/
def storageKeyBase : String := "danmaku_selection_"

/-- Key of the auto-search source-index record for a title. -/
def indexKey (title : String) : String :=
  storageKeyBase ++ "index_" ++ title

/-- Key of the manual episode selection record for a title and episode index. -/
def manualKey (title : String) (episodeIndex : Int) : String :=
  storageKeyBase ++ "manual_" ++ title ++ "_" ++ jsNumToString episodeIndex

/-- The stem `clearDanmakuSelectionMemory` matches manual-selection keys
against: `danmaku_selection_manual_{title}_`. -/
def manualStem (title : String) : String :=
  storageKeyBase ++ "manual_" ++ title ++ "_"

/-- `saveDanmakuSourceIndex(title, selectedIndex)`. -/
def saveDanmakuSourceIndex (st : Store) (title : String) (selectedIndex : Int) :
    Store :=
  st.setItem (indexKey title) (jsNumToString selectedIndex)

/-- `getDanmakuSourceIndex(title)`: parses the stored string and returns it
only when it is a number that is `>= 0`; otherwise `null`. -/
def getDanmakuSourceIndex (st : Store) (title : String) : Option Int :=
  (st.getItem (indexKey title)).bind fun value =>
    (jsParseInt value).bind fun idx =>
      if 0 ≤ idx then some idx else none

/-- `saveManualDanmakuSelection(title, episodeIndex, episodeId)`. -/
def saveManualDanmakuSelection (st : Store) (title : String)
    (episodeIndex : Int) (episodeId : Int) : Store :=
  st.setItem (manualKey title episodeIndex) (jsNumToString episodeId)

/-- `getManualDanmakuSelection(title, episodeIndex)`: parses the stored
string and returns any number (no sign check, unlike the source-index
reader). -/
def getManualDanmakuSelection (st : Store) (title : String)
    (episodeIndex : Int) : Option Int :=
  (st.getItem (manualKey title episodeIndex)).bind fun value =>
    (jsParseInt value).bind fun episodeId => some episodeId

/-- `clearDanmakuSelectionMemory(title)`: removes the title's index key, then
every key starting with `danmaku_selection_manual_{title}_`. -/
def clearDanmakuSelectionMemory (st : Store) (title : String) : Store :=
  (st.removeItem (indexKey title)).filter
    (fun kv => !(jsStartsWith kv.1 (manualStem title)))

/-- `clearAllDanmakuSelectionMemory()`: removes every key starting with the
storage prefix. -/
def clearAllDanmakuSelectionMemory (st : Store) : Store :=
  st.filter (fun kv => !(jsStartsWith kv.1 storageKeyBase))

/-! ### Lemmas: decimal printing round-trips through `parseInt` -/

theorem digitsVal_append_single (l : List Char) (c : Char) :
    digitsVal (l ++ [c]) = digitsVal l * 10 + (c.toNat - 48) := by
  simp [digitsVal, List.foldl_append]

/-- A decimal digit character: its code point, digit-ness, and the facts that
`parseInt` head-dispatch needs (not whitespace, not a sign). -/
theorem digitChar_facts (d : Nat) (h : d < 10) :
    (Char.ofNat (48 + d)).toNat = 48 + d ∧
    (Char.ofNat (48 + d)).isDigit = true ∧
    (Char.ofNat (48 + d)).isWhitespace = false ∧
    Char.ofNat (48 + d) ≠ '-' ∧ Char.ofNat (48 + d) ≠ '+' := by
  interval_cases d <;> exact ⟨rfl, rfl, rfl, by decide, by decide⟩

/-- `GoodDigit c`: `c` is a decimal digit, in the position it occupies in a
printed number it cannot be skipped as whitespace nor read as a sign. -/
def GoodDigit (c : Char) : Prop :=
  c.isDigit = true ∧ c.isWhitespace = false ∧ c ≠ '-' ∧ c ≠ '+'

theorem natDigitsAux_spec :
    ∀ fuel n, n < fuel →
      natDigitsAux fuel n ≠ [] ∧ (∀ c ∈ natDigitsAux fuel n, GoodDigit c) ∧
      digitsVal (natDigitsAux fuel n) = n := by
  intro fuel
  induction fuel with
  | zero => intro n h; omega
  | succ f ih =>
    intro n h
    by_cases h10 : n < 10
    · obtain ⟨ht, hd, hw, hm, hp⟩ := digitChar_facts n h10
      refine ⟨by simp [natDigitsAux, h10], ?_, ?_⟩
      · intro c hc
        simp [natDigitsAux, h10] at hc
        subst hc
        exact ⟨hd, hw, hm, hp⟩
      · simp [natDigitsAux, h10, digitsVal, ht]
    · obtain ⟨hne, hgood, hval⟩ := ih (n / 10) (by omega)
      obtain ⟨ht, hd, hw, hm, hp⟩ := digitChar_facts (n % 10) (Nat.mod_lt n (by omega))
      refine ⟨by simp [natDigitsAux, h10], ?_, ?_⟩
      · intro c hc
        simp [natDigitsAux, h10] at hc
        rcases hc with hc | hc
        · exact hgood c hc
        · subst hc; exact ⟨hd, hw, hm, hp⟩
      · simp [natDigitsAux, h10, digitsVal_append_single, hval, ht]
        omega

theorem natDigits_spec (n : Nat) :
    natDigits n ≠ [] ∧ (∀ c ∈ natDigits n, GoodDigit c) ∧
    digitsVal (natDigits n) = n :=
  natDigitsAux_spec (n + 1) n (by omega)

theorem takeWhile_of_all {p : Char → Bool} (l : List Char)
    (h : ∀ c ∈ l, p c = true) : l.takeWhile p = l :=
  List.takeWhile_eq_self_iff.mpr h

/-- Evaluation of `jsParseInt` on a string whose first character is not
whitespace. -/
theorem jsParseInt_mk_cons (c : Char) (t : List Char)
    (hw : c.isWhitespace = false) :
    jsParseInt (String.mk (c :: t)) =
      (if c = '-' then
        (if (t.takeWhile Char.isDigit).isEmpty then none
         else some (-(digitsVal (t.takeWhile Char.isDigit) : Int)))
      else if c = '+' then
        (if (t.takeWhile Char.isDigit).isEmpty then none
         else some ((digitsVal (t.takeWhile Char.isDigit) : Int)))
      else
        (if ((c :: t).takeWhile Char.isDigit).isEmpty then none
         else some ((digitsVal ((c :: t).takeWhile Char.isDigit) : Int)))) := by
  unfold jsParseInt
  have hdrop : (String.mk (c :: t)).data.dropWhile Char.isWhitespace =
      c :: t := by
    simp [List.dropWhile, hw]
  rw [hdrop]

/-- `parseInt(n.toString(), 10)` recovers `n` for every integer `n`. -/
theorem jsParseInt_jsNumToString (i : Int) :
    jsParseInt (jsNumToString i) = some i := by
  obtain ⟨hne, hgood, hval⟩ := natDigits_spec i.natAbs
  have htake : (natDigits i.natAbs).takeWhile Char.isDigit =
      natDigits i.natAbs :=
    takeWhile_of_all _ (fun x hx => (hgood x hx).1)
  have hemp : (natDigits i.natAbs).isEmpty = false := by
    cases hd : natDigits i.natAbs with
    | nil => exact absurd hd hne
    | cons c t => rfl
  by_cases hneg : i < 0
  · have h1 : jsNumToString i = String.mk ('-' :: natDigits i.natAbs) := by
      unfold jsNumToString; rw [if_pos hneg]
    rw [h1, jsParseInt_mk_cons '-' _ (by decide), if_pos rfl, htake]
    simp only [hemp, Bool.false_eq_true, if_false, hval, Option.some.injEq]
    omega
  · obtain ⟨c, t, hct⟩ : ∃ c t, natDigits i.natAbs = c :: t := by
      cases hd : natDigits i.natAbs with
      | nil => exact absurd hd hne
      | cons c t => exact ⟨c, t, rfl⟩
    have hgc : GoodDigit c := hgood c (by rw [hct]; exact List.mem_cons_self c t)
    have h1 : jsNumToString i = String.mk (c :: t) := by
      unfold jsNumToString; rw [if_neg hneg, hct]
    rw [h1, jsParseInt_mk_cons c t hgc.2.1, if_neg hgc.2.2.1,
      if_neg hgc.2.2.2, ← hct, htake]
    simp only [hemp, Bool.false_eq_true, if_false, hval, Option.some.injEq]
    omega

/-! ### Lemmas: storage as an association list -/

theorem getItem_setItem_self (st : Store) (k v : String) :
    (st.setItem k v).getItem k = some v := by
  induction st with
  | nil => simp [Store.setItem, Store.getItem]
  | cons kv rest ih =>
    obtain ⟨k', v'⟩ := kv
    by_cases hk : k' = k
    · subst hk; simp [Store.setItem, Store.getItem]
    · simp [Store.setItem, Store.getItem, hk, ih]

theorem getItem_filter_of_pred {p : String × String → Bool} (st : Store)
    (key : String) (h : ∀ v, p (key, v) = true) :
    Store.getItem (st.filter p) key = st.getItem key := by
  induction st with
  | nil => rfl
  | cons kv rest ih =>
    obtain ⟨k, v⟩ := kv
    by_cases hk : k = key
    · subst hk
      simp [List.filter, h v, Store.getItem, ih]
    · cases hp : p (k, v) <;>
        simp [List.filter, hp, Store.getItem, hk, ih]

/-! ### Lemmas: key shapes never collide across namespaces -/

theorem string_eq_of_data_eq {s t : String} (h : s.data = t.data) : s = t := by
  cases s; cases t; exact congrArg String.mk h

theorem isPrefixOf_append_same :
    ∀ (a x y : List Char), (a ++ x).isPrefixOf (a ++ y) = x.isPrefixOf y := by
  intro a
  induction a with
  | nil => intro x y; rfl
  | cons c a' ih => intro x y; simp [List.isPrefixOf, ih]

theorem isPrefixOf_cons_ne {a b : Char} (h : a ≠ b) (x y : List Char) :
    (a :: x).isPrefixOf (b :: y) = false := by
  simp [List.isPrefixOf, h]

/-- The index key of any title never matches the manual-clearing stem of any
title: the two namespaces differ right after the common storage prefix. -/
theorem indexKey_not_manualStem (t1 t2 : String) :
    jsStartsWith (indexKey t2) (manualStem t1) = false := by
  unfold jsStartsWith indexKey manualStem storageKeyBase
  simp only [String.data_append, List.append_assoc]
  rw [isPrefixOf_append_same]
  simp only [List.cons_append]
  exact isPrefixOf_cons_ne (by decide) _ _

/-- Index keys of distinct titles are distinct. -/
theorem indexKey_inj {t1 t2 : String} (h : indexKey t1 = indexKey t2) :
    t1 = t2 := by
  unfold indexKey at h
  have hd := congrArg String.data h
  simp only [String.data_append, List.append_assoc] at hd
  have h1 := List.append_cancel_left hd
  have h2 := List.append_cancel_left h1
  exact string_eq_of_data_eq h2

/-- A manual-selection key is never the index key of any title. -/
theorem manualKey_ne_indexKey (t1 t2 : String) (e : Int) :
    manualKey t2 e ≠ indexKey t1 := by
  intro h
  unfold manualKey indexKey at h
  have hd := congrArg String.data h
  simp only [String.data_append, List.append_assoc] at hd
  have h1 := List.append_cancel_left hd
  simp only [List.cons_append] at h1
  injection h1 with hc _
  exact absurd hc (by decide)

/-- Clearing title `t1` leaves the source-index record of any other title
untouched. -/
theorem getItem_clear_index (st : Store) (t1 t2 : String) (hne : t1 ≠ t2) :
    Store.getItem (clearDanmakuSelectionMemory st t1) (indexKey t2) =
      st.getItem (indexKey t2) := by
  unfold clearDanmakuSelectionMemory Store.removeItem
  rw [getItem_filter_of_pred, getItem_filter_of_pred]
  · intro v
    simp only [bne_iff_ne, ne_eq, decide_eq_true_eq]
    intro h
    exact hne (indexKey_inj (Eq.symm h))
  · intro v
    simp [indexKey_not_manualStem]

/-- Clearing title `t1` leaves a manual record of another title untouched
provided that record's key does not extend `t1`'s manual stem. -/
theorem getItem_clear_manual (st : Store) (t1 t2 : String) (e : Int)
    (hkey : jsStartsWith (manualKey t2 e) (manualStem t1) = false) :
    Store.getItem (clearDanmakuSelectionMemory st t1) (manualKey t2 e) =
      st.getItem (manualKey t2 e) := by
  unfold clearDanmakuSelectionMemory Store.removeItem
  rw [getItem_filter_of_pred, getItem_filter_of_pred]
  · intro v
    simp [manualKey_ne_indexKey t1 t2 e]
  · intro v
    simp [hkey]

/-! ### Claims C1, C2, C10: selection memory -/

/-- Store used by the C1 counterexample: source-index and manual records
saved under both titles `"a"` and `"a_0"`. -/
def c1Store : Store :=
  saveManualDanmakuSelection
    (saveDanmakuSourceIndex
      (saveManualDanmakuSelection
        (saveDanmakuSourceIndex [] "a" 0) "a" 0 5) "a_0" 1) "a_0" 0 7

/-- C1: the claim as stated is false. Titles `"a"` and `"a_0"` are distinct,
a manual-selection record is saved under `"a_0"` (episode 0, id 7), yet
`clearDanmakuSelectionMemory("a")` also removes it: the key
`danmaku_selection_manual_a_0_0` starts with the stem
`danmaku_selection_manual_a_` that clearing title `"a"` matches. -/
theorem claim_C1_counterexample :
    ("a" : String) ≠ "a_0" ∧
    getManualDanmakuSelection c1Store "a_0" 0 = some 7 ∧
    getManualDanmakuSelection (clearDanmakuSelectionMemory c1Store "a") "a_0" 0
      = none := by
  decide

/-- C1 (amended): clearing is scoped per title except for manual-key prefix
capture. For distinct titles `t1 ≠ t2`, `clearDanmakuSelectionMemory(t1)`
always leaves `t2`'s source-index record unchanged (no further condition),
and leaves `t2`'s manual record for episode `e` unchanged provided its key
does not start with `t1`'s manual-clearing stem
`danmaku_selection_manual_{t1}_`. -/
theorem claim_C1_clear_scoped (st : Store) (t1 t2 : String) (e : Int)
    (hne : t1 ≠ t2) :
    getDanmakuSourceIndex (clearDanmakuSelectionMemory st t1) t2 =
      getDanmakuSourceIndex st t2 ∧
    (jsStartsWith (manualKey t2 e) (manualStem t1) = false →
      getManualDanmakuSelection (clearDanmakuSelectionMemory st t1) t2 e =
        getManualDanmakuSelection st t2 e) := by
  constructor
  · unfold getDanmakuSourceIndex
    rw [getItem_clear_index st t1 t2 hne]
  · intro hkey
    unfold getManualDanmakuSelection
    rw [getItem_clear_manual st t1 t2 e hkey]

/-- C1 witness: with titles `"a"` and `"b"` both conclusions hold, and for
the prefix-capture pair `"a"`, `"a_0"` of the counterexample the
source-index record of `"a_0"` is still preserved unconditionally. -/
theorem claim_C1_witness :
    getDanmakuSourceIndex
        (clearDanmakuSelectionMemory
          (saveManualDanmakuSelection (saveDanmakuSourceIndex [] "b" 4)
            "b" 2 9) "a") "b" =
      getDanmakuSourceIndex
        (saveManualDanmakuSelection (saveDanmakuSourceIndex [] "b" 4)
          "b" 2 9) "b" ∧
    getManualDanmakuSelection
        (clearDanmakuSelectionMemory
          (saveManualDanmakuSelection (saveDanmakuSourceIndex [] "b" 4)
            "b" 2 9) "a") "b" 2 =
      getManualDanmakuSelection
        (saveManualDanmakuSelection (saveDanmakuSourceIndex [] "b" 4)
          "b" 2 9) "b" 2 ∧
    getDanmakuSourceIndex (clearDanmakuSelectionMemory c1Store "a") "a_0" =
      getDanmakuSourceIndex c1Store "a_0" :=
  ⟨(claim_C1_clear_scoped
      (saveManualDanmakuSelection (saveDanmakuSourceIndex [] "b" 4) "b" 2 9)
      "a" "b" 2 (by decide)).1,
   (claim_C1_clear_scoped
      (saveManualDanmakuSelection (saveDanmakuSourceIndex [] "b" 4) "b" 2 9)
      "a" "b" 2 (by decide)).2 (by decide),
   (claim_C1_clear_scoped c1Store "a" "a_0" 0 (by decide)).1⟩

/-- C2: the claim as stated is false for the source-index records: saving
index `-1` under a title and reading it back yields `null`, not `-1`,
because `getDanmakuSourceIndex` rejects parsed values `< 0`. -/
theorem claim_C2_counterexample :
    getDanmakuSourceIndex (saveDanmakuSourceIndex [] "t" (-1)) "t" ≠
      some (-1) := by
  decide

/-- C2 (amended): save followed by get on the same key returns the exact
stored value — for `saveDanmakuSourceIndex` provided the saved index is
`>= 0`, and for `saveManualDanmakuSelection` for every episode id. -/
theorem claim_C2_roundtrip (st : Store) (t : String) (e i id : Int)
    (hi : 0 ≤ i) :
    getDanmakuSourceIndex (saveDanmakuSourceIndex st t i) t = some i ∧
    getManualDanmakuSelection (saveManualDanmakuSelection st t e id) t e =
      some id := by
  constructor
  · unfold getDanmakuSourceIndex saveDanmakuSourceIndex
    rw [getItem_setItem_self]
    simp [jsParseInt_jsNumToString, hi]
  · unfold getManualDanmakuSelection saveManualDanmakuSelection
    rw [getItem_setItem_self]
    simp [jsParseInt_jsNumToString]

/-- C2 witness: round trip at a concrete store, title, episode and values. -/
theorem claim_C2_witness :
    getDanmakuSourceIndex (saveDanmakuSourceIndex [] "t" 3) "t" = some 3 ∧
    getManualDanmakuSelection (saveManualDanmakuSelection [] "t" 2 (-7)) "t" 2
      = some (-7) :=
  claim_C2_roundtrip [] "t" 2 3 (-7) (by decide)

/-- C10: the two readers validate differently. A negative saved source index
reads back as `null` (the parsed value must be `>= 0`), a negative manual
episode id reads back unchanged, and any value `getDanmakuSourceIndex`
returns is nonnegative. -/
theorem claim_C10_reader_asymmetry (st : Store) (t : String) (e i : Int)
    (hi : i < 0) :
    getDanmakuSourceIndex (saveDanmakuSourceIndex st t i) t = none ∧
    getManualDanmakuSelection (saveManualDanmakuSelection st t e i) t e =
      some i ∧
    (∀ (st' : Store) (v : Int), getDanmakuSourceIndex st' t = some v → 0 ≤ v)
    := by
  refine ⟨?_, ?_, ?_⟩
  · unfold getDanmakuSourceIndex saveDanmakuSourceIndex
    rw [getItem_setItem_self]
    simp [jsParseInt_jsNumToString]
    omega
  · unfold getManualDanmakuSelection saveManualDanmakuSelection
    rw [getItem_setItem_self]
    simp [jsParseInt_jsNumToString]
  · intro st' v h
    unfold getDanmakuSourceIndex at h
    cases hg : st'.getItem (indexKey t) with
    | none => rw [hg] at h; simp at h
    | some value =>
      rw [hg] at h
      simp only [Option.some_bind] at h
      cases hp : jsParseInt value with
      | none => rw [hp] at h; simp at h
      | some idx =>
        rw [hp] at h
        simp only [Option.some_bind] at h
        split at h
        next hcond => simp at h; omega
        next => simp at h

/-- C10 witness: concrete instance at saved value `-1`. -/
theorem claim_C10_witness :
    getDanmakuSourceIndex (saveDanmakuSourceIndex [] "t" (-1)) "t" = none ∧
    getManualDanmakuSelection (saveManualDanmakuSelection [] "t" 2 (-1)) "t" 2
      = some (-1) ∧
    (∀ (st' : Store) (v : Int), getDanmakuSourceIndex st' "t" = some v →
      0 ≤ v) :=
  claim_C10_reader_asymmetry [] "t" 2 (-1) (by decide)

/-! ### Carousel controller: index arithmetic of `goToNext` / `goToPrevious`

The carousel stores `currentIndex`; manual navigation updates it with
`(prev + 1) % items.length` and `(prev - 1 + items.length) % items.length`.
JavaScript's `%` on these nonnegative operands agrees with `Int.emod`. -/

/-- `goToNext`: `setCurrentIndex((prev) => (prev + 1) % items.length)`. -/
def goToNext (n idx : Int) : Int := (idx + 1) % n

/-- `goToPrevious`:
`setCurrentIndex((prev) => (prev - 1 + items.length) % items.length)`. -/
def goToPrevious (n idx : Int) : Int := (idx - 1 + n) % n

/-- Iterate the `next` transition `k` times. -/
def nextIter (n : Int) : Nat → Int → Int
  | 0, idx => idx
  | k + 1, idx => nextIter n k (goToNext n idx)

theorem nextIter_succ_eq (n : Int) :
    ∀ (k : Nat) (idx : Int), nextIter n (k + 1) idx = (idx + 1 + k) % n := by
  intro k
  induction k with
  | zero => intro idx; simp [nextIter, goToNext]
  | succ k ih =>
    intro idx
    rw [show nextIter n (k + 1 + 1) idx = nextIter n (k + 1) (goToNext n idx)
      from rfl]
    rw [ih (goToNext n idx)]
    unfold goToNext
    rw [add_assoc, Int.emod_add_emod]
    congr 1
    push_cast
    ring

/-- C6: carousel index arithmetic. For every item count `N > 0`, applying
the `next` transition `N` times starting from index 0 returns to index 0,
and applying the `previous` transition once from index 0 lands on `N - 1`. -/
theorem claim_C6_carousel_wraparound (N : Int) (h : 0 < N) :
    nextIter N N.toNat 0 = 0 ∧ goToPrevious N 0 = N - 1 := by
  constructor
  · obtain ⟨m, hm⟩ : ∃ m, N.toNat = m + 1 := ⟨N.toNat - 1, by omega⟩
    rw [hm, nextIter_succ_eq]
    rw [show (0 : Int) + 1 + (m : Int) = N by omega]
    exact Int.emod_self
  · unfold goToPrevious
    rw [show (0 : Int) - 1 + N = N - 1 by ring]
    exact Int.emod_eq_of_lt (by omega) (by omega)

/-- C6 witness: with three items, `next` three times returns to 0 and
`previous` from 0 lands on 2. -/
theorem claim_C6_witness :
    nextIter 3 (3 : Int).toNat 0 = 0 ∧ goToPrevious 3 0 = (3 : Int) - 1 :=
  claim_C6_carousel_wraparound 3 (by decide)

/-! ### Trending route handler: per-source TTL cache and error mapping -/

/-- `CACHE_DURATION = 3 * 60 * 60 * 1000` (3 hours, in milliseconds). -/
def CACHE_DURATION : Int := 3 * 60 * 60 * 1000

/-- One cache slot: `{ data, timestamp }`. -/
structure CacheEntry (α : Type) where
  data : α
  timestamp : Int
  deriving DecidableEq

/-- The module-level slots `tmdbCache` and `txCache`. -/
structure BannerCaches (α : Type) where
  tmdbCache : Option (CacheEntry α)
  txCache : Option (CacheEntry α)
  deriving DecidableEq

/-- The site-config fields the handler reads; `none` models an absent
field. -/
structure SiteConfig where
  BannerDataSource : Option String
  TMDBApiKey : Option String
  deriving DecidableEq

/-- `config.SiteConfig?.BannerDataSource || 'TMDB'`: JavaScript `||`, so an
absent or empty string falls back to `'TMDB'`. -/
def effectiveSource (cfg : SiteConfig) : String :=
  match cfg.BannerDataSource with
  | none => "TMDB"
  | some s => if s = "" then "TMDB" else s

/-- `!apiKey`: an absent or empty `TMDBApiKey` is falsy. -/
def apiKeyMissing (cfg : SiteConfig) : Bool :=
  match cfg.TMDBApiKey with
  | none => true
  | some s => s = ""

/-- A route response: `NextResponse.json(body)` (HTTP 200), or
`NextResponse.json({code, message}, {status})`. -/
inductive Rsp (α : Type) where
  | payload (body : α)
  | failure (code : Nat) (message : String) (status : Nat)
  deriving DecidableEq

/-- The slot the handler consults:
`bannerDataSource === 'TX' ? txCache : tmdbCache`. -/
def selectedSlot {α : Type} (cfg : SiteConfig) (st : BannerCaches α) :
    Option (CacheEntry α) :=
  if effectiveSource cfg = "TX" then st.txCache else st.tmdbCache

/-- The selected slot emptied, for phrasing "the entry is treated as
absent". -/
def clearSelectedSlot {α : Type} (cfg : SiteConfig) (st : BannerCaches α) :
    BannerCaches α :=
  if effectiveSource cfg = "TX" then { st with txCache := none }
  else { st with tmdbCache := none }

/-- The fetch-and-populate path of `GET`, reached when the selected slot is
absent or expired. The upstream calls are parameters of the embedding:
`txResult` is the value of `getTXBannerContent()` (that function catches its
own errors and always resolves), `tmdbResult` is
`getTMDBTrendingContent(apiKey, proxy)`, whose rejection (`Except.error`)
hits the route's catch-all. -/
def fetchAndStore {α : Type} (cfg : SiteConfig) (st : BannerCaches α)
    (now : Int) (txResult : α) (tmdbResult : Except Unit α) :
    Rsp α × BannerCaches α :=
  if effectiveSource cfg = "TX" then
    (Rsp.payload txResult, { st with txCache := some ⟨txResult, now⟩ })
  else if apiKeyMissing cfg then
    (Rsp.failure 400 "TMDB API Key 未配置" 400, st)
  else
    match tmdbResult with
    | .ok r => (Rsp.payload r, { st with tmdbCache := some ⟨r, now⟩ })
    | .error _ => (Rsp.failure 500 "获取热门内容失败" 500, st)

/-- The `GET` route handler: consult the selected source's slot first, serve
it when `now - timestamp < CACHE_DURATION`, otherwise fetch fresh data and
repopulate that slot. -/
def handleGET {α : Type} (cfg : SiteConfig) (st : BannerCaches α) (now : Int)
    (txResult : α) (tmdbResult : Except Unit α) : Rsp α × BannerCaches α :=
  match selectedSlot cfg st with
  | some e =>
      if now - e.timestamp < CACHE_DURATION then (Rsp.payload e.data, st)
      else fetchAndStore cfg st now txResult tmdbResult
  | none => fetchAndStore cfg st now txResult tmdbResult

/-- The response of the fetch path does not depend on the incoming cache
state. -/
theorem fetchAndStore_fst_indep {α : Type} (cfg : SiteConfig)
    (st st' : BannerCaches α) (now : Int) (tx : α) (tm : Except Unit α) :
    (fetchAndStore cfg st now tx tm).1 = (fetchAndStore cfg st' now tx tm).1
    := by
  unfold fetchAndStore
  by_cases h1 : effectiveSource cfg = "TX"
  · simp [h1]
  · by_cases h2 : apiKeyMissing cfg
    · simp [h1, h2]
    · cases tm <;> simp [h1, h2]

/-- The selected slot of the cleared state is empty. -/
theorem selectedSlot_clearSelectedSlot {α : Type} (cfg : SiteConfig)
    (st : BannerCaches α) : selectedSlot cfg (clearSelectedSlot cfg st) = none
    := by
  unfold selectedSlot clearSelectedSlot
  by_cases h : effectiveSource cfg = "TX" <;> simp [h]

/-- Only the missing-API-key branch produces a 400-coded failure. -/
theorem fetchAndStore_eq_400 {α : Type} {cfg : SiteConfig}
    {st : BannerCaches α} {now : Int} {tx : α} {tm : Except Unit α}
    {m : String} {s : Nat} {stOut : BannerCaches α}
    (h : fetchAndStore cfg st now tx tm = (Rsp.failure 400 m s, stOut)) :
    effectiveSource cfg ≠ "TX" ∧ apiKeyMissing cfg = true := by
  unfold fetchAndStore at h
  by_cases h1 : effectiveSource cfg = "TX"
  · rw [if_pos h1] at h
    simp at h
  · rw [if_neg h1] at h
    by_cases h2 : apiKeyMissing cfg = true
    · exact ⟨h1, h2⟩
    · rw [if_neg (by simp [h2])] at h
      cases tm with
      | ok r => simp at h
      | error e => simp at h

/-! ### Claims C5, C8, C9: TTL cache and error mapping of `GET` -/

/-- C5: server-side TTL cache. For either source slot, a `GET` strictly less
than 3 hours after the `put` that filled the selected slot returns exactly
the stored data and leaves the caches unchanged; a `GET` 3 hours or more
after treats the slot as absent: it takes the fresh-fetch path, and its
response is the one it would give with the slot empty. -/
theorem claim_C5_ttl_cache {α : Type} (cfg : SiteConfig) (st : BannerCaches α)
    (d : α) (tPut now : Int) (tx : α) (tm : Except Unit α)
    (hslot : selectedSlot cfg st = some ⟨d, tPut⟩) :
    (now - tPut < CACHE_DURATION →
      handleGET cfg st now tx tm = (Rsp.payload d, st)) ∧
    (CACHE_DURATION ≤ now - tPut →
      handleGET cfg st now tx tm = fetchAndStore cfg st now tx tm ∧
      (handleGET cfg st now tx tm).1 =
        (handleGET cfg (clearSelectedSlot cfg st) now tx tm).1) := by
  constructor
  · intro hfresh
    unfold handleGET
    rw [hslot]
    simp [hfresh]
  · intro hstale
    have hnl : ¬ (now - tPut < CACHE_DURATION) := by omega
    refine ⟨?_, ?_⟩
    · unfold handleGET
      rw [hslot]
      simp [hnl]
    · unfold handleGET
      rw [hslot, selectedSlot_clearSelectedSlot]
      simp only [hnl, if_false]
      exact fetchAndStore_fst_indep cfg st (clearSelectedSlot cfg st) now tx tm

/-- C5 witness: TX slot filled at time 100 with data 5; a read at 200 serves
the cached 5, a read at `100 + CACHE_DURATION` takes the fetch path. -/
theorem claim_C5_witness :
    handleGET ⟨some "TX", none⟩ (⟨none, some ⟨(5 : Nat), 100⟩⟩ :
        BannerCaches Nat) 200 7 (Except.error ()) =
      (Rsp.payload 5, ⟨none, some ⟨5, 100⟩⟩) ∧
    handleGET ⟨some "TX", none⟩ (⟨none, some ⟨(5 : Nat), 100⟩⟩ :
        BannerCaches Nat) (100 + CACHE_DURATION) 7 (Except.error ()) =
      fetchAndStore ⟨some "TX", none⟩ ⟨none, some ⟨5, 100⟩⟩
        (100 + CACHE_DURATION) 7 (Except.error ()) :=
  ⟨(claim_C5_ttl_cache ⟨some "TX", none⟩ ⟨none, some ⟨5, 100⟩⟩ 5 100 200 7
      (Except.error ()) rfl).1 (by decide),
   ((claim_C5_ttl_cache ⟨some "TX", none⟩ ⟨none, some ⟨5, 100⟩⟩ 5 100
      (100 + CACHE_DURATION) 7 (Except.error ()) rfl).2 (by decide)).1⟩

/-- C8: the claim as stated is false. With the TMDB API key missing but a
fresh `tmdbCache` entry present, `GET` serves the cached data instead of
returning the 400 error. -/
theorem claim_C8_counterexample :
    apiKeyMissing ⟨some "TMDB", none⟩ = true ∧
    handleGET ⟨some "TMDB", none⟩ (⟨some ⟨(42 : Nat), 0⟩, none⟩ :
        BannerCaches Nat) 1 7 (Except.error ()) =
      (Rsp.payload 42, ⟨some ⟨42, 0⟩, none⟩) ∧
    (handleGET ⟨some "TMDB", none⟩ (⟨some ⟨(42 : Nat), 0⟩, none⟩ :
        BannerCaches Nat) 1 7 (Except.error ())).1 ≠
      Rsp.failure 400 "TMDB API Key 未配置" 400 := by
  decide

/-- C8 (amended): error mapping of `GET` on the fetch path. When the
metadata-provider source is selected and its cache slot is absent or
expired, a missing API key yields `{code: 400, message}` with HTTP status
400, and an unexpected upstream failure yields `{code: 500, message}` with
HTTP status 500. -/
theorem claim_C8_error_mapping {α : Type} (cfg : SiteConfig)
    (st : BannerCaches α) (now : Int) (tx : α) (tm : Except Unit α)
    (hsrc : effectiveSource cfg ≠ "TX")
    (hmiss : ∀ e, selectedSlot cfg st = some e →
      CACHE_DURATION ≤ now - e.timestamp) :
    (apiKeyMissing cfg = true →
      handleGET cfg st now tx tm =
        (Rsp.failure 400 "TMDB API Key 未配置" 400, st)) ∧
    (apiKeyMissing cfg = false → tm = Except.error () →
      handleGET cfg st now tx tm =
        (Rsp.failure 500 "获取热门内容失败" 500, st)) := by
  have hfetch : handleGET cfg st now tx tm =
      fetchAndStore cfg st now tx tm := by
    unfold handleGET
    cases hs : selectedSlot cfg st with
    | none => rfl
    | some e =>
        have := hmiss e hs
        simp [show ¬ (now - e.timestamp < CACHE_DURATION) by omega]
  constructor
  · intro hkey
    rw [hfetch]
    unfold fetchAndStore
    rw [if_neg hsrc, if_pos hkey]
  · intro hkey htm
    rw [hfetch, htm]
    unfold fetchAndStore
    rw [if_neg hsrc, if_neg (by simp [hkey])]

/-- C8 witness: empty caches; missing key gives the 400 response, a present
key with a rejecting upstream gives the 500 response. -/
theorem claim_C8_witness :
    handleGET (⟨none, none⟩ : SiteConfig) (⟨none, none⟩ : BannerCaches Nat)
        0 7 (Except.error ()) =
      (Rsp.failure 400 "TMDB API Key 未配置" 400, ⟨none, none⟩) ∧
    handleGET (⟨none, some "k"⟩ : SiteConfig)
        (⟨none, none⟩ : BannerCaches Nat) 0 7 (Except.error ()) =
      (Rsp.failure 500 "获取热门内容失败" 500, ⟨none, none⟩) :=
  ⟨(claim_C8_error_mapping ⟨none, none⟩ ⟨none, none⟩ 0 7 (Except.error ())
      (by decide) (by intro e h; exact Option.noConfusion h)).1 rfl,
   (claim_C8_error_mapping ⟨none, some "k"⟩ ⟨none, none⟩ 0 7
      (Except.error ()) (by decide)
      (by intro e h; exact Option.noConfusion h)).2 rfl rfl⟩

/-- C9: the handler consults the cache before validating configuration.
A fresh entry in the selected slot is served as-is — no hypothesis about the
API key — and any 400-coded failure implies the metadata-provider source was
selected, the key was missing, and the selected slot was absent or expired.
-/
theorem claim_C9_cache_first {α : Type} (cfg : SiteConfig)
    (st : BannerCaches α) (now : Int) (tx : α) (tm : Except Unit α) :
    (∀ (d : α) (tPut : Int), selectedSlot cfg st = some ⟨d, tPut⟩ →
      now - tPut < CACHE_DURATION →
      handleGET cfg st now tx tm = (Rsp.payload d, st)) ∧
    (∀ (m : String) (s : Nat) (stOut : BannerCaches α),
      handleGET cfg st now tx tm = (Rsp.failure 400 m s, stOut) →
      effectiveSource cfg ≠ "TX" ∧ apiKeyMissing cfg = true ∧
      ∀ e, selectedSlot cfg st = some e →
        CACHE_DURATION ≤ now - e.timestamp) := by
  constructor
  · intro d tPut hslot hfresh
    unfold handleGET
    rw [hslot]
    simp [hfresh]
  · intro m s stOut h
    unfold handleGET at h
    split at h
    next e heq =>
      by_cases hfresh : now - e.timestamp < CACHE_DURATION
      · rw [if_pos hfresh] at h
        simp at h
      · rw [if_neg hfresh] at h
        obtain ⟨hsrc, hkey⟩ := fetchAndStore_eq_400 h
        refine ⟨hsrc, hkey, fun e' he' => ?_⟩
        rw [heq] at he'
        injection he' with hee
        subst hee
        omega
    next heq =>
      obtain ⟨hsrc, hkey⟩ := fetchAndStore_eq_400 h
      refine ⟨hsrc, hkey, fun e' he' => ?_⟩
      rw [heq] at he'
      exact Option.noConfusion he'

/-- C9 witness: with the key missing but a fresh TMDB entry, the cached data
is served. -/
theorem claim_C9_witness :
    handleGET (⟨none, none⟩ : SiteConfig)
        (⟨some ⟨(5 : Nat), 0⟩, none⟩ : BannerCaches Nat) 10 7
        (Except.error ()) = (Rsp.payload 5, ⟨some ⟨5, 0⟩, none⟩) :=
  (claim_C9_cache_first ⟨none, none⟩ ⟨some ⟨5, 0⟩, none⟩ 10 7
    (Except.error ())).1 5 0 rfl (by decide)

/-! ### JSON-like JavaScript values

`parseTXBannerData` receives an arbitrary parsed JSON payload and the
client cache stores one; both are modelled over this value type. JavaScript
exceptions (`TypeError` on property access of `null`/`undefined`, string
methods invoked on non-strings) are modelled with `Except Unit`; the
functions' `try`/`catch` blocks discharge them. -/

inductive JVal where
  | jnull
  | jundefined
  | jbool (b : Bool)
  | jnum (n : Int)
  | jstr (s : String)
  | jarr (elems : List JVal)
  | jobj (fields : List (String × JVal))

/-- Field lookup in an object's field list (first binding wins). -/
def lookupField : List (String × JVal) → String → Option JVal
  | [], _ => none
  | (k, v) :: rest, key => if k = key then some v else lookupField rest key

/-- Optional-chained property access (`v?.k`): `undefined` for a
`null`/`undefined` receiver, the field value on objects (absent fields are
`undefined`), `undefined` on other values (none of the built-in properties
of primitives or arrays is among the keys this code reads, except `length`,
which is modelled separately). -/
def optProp (v : JVal) (k : String) : JVal :=
  match v with
  | .jobj fs => (lookupField fs k).getD .jundefined
  | _ => .jundefined

/-- Plain property access (`v.k`): throws a `TypeError` on `null` and
`undefined`, otherwise as `optProp`. -/
def getPropE (v : JVal) (k : String) : Except Unit JVal :=
  match v with
  | .jnull => .error ()
  | .jundefined => .error ()
  | _ => .ok (optProp v k)

/-- JavaScript truthiness of a value. -/
def truthy : JVal → Bool
  | .jnull => false
  | .jundefined => false
  | .jbool b => b
  | .jnum n => n != 0
  | .jstr s => s != ""
  | .jarr _ => true
  | .jobj _ => true

/-- `a || b`: the left operand when truthy, otherwise the right. -/
def jsOr (a b : JVal) : JVal := if truthy a then a else b

/-- `===` against a string literal. -/
def isStrVal (v : JVal) (s : String) : Bool :=
  match v with
  | .jstr t => t = s
  | _ => false

/-- `===` against a number literal. -/
def isNumVal (v : JVal) (n : Int) : Bool :=
  match v with
  | .jnum m => m = n
  | _ => false

/-- `String.prototype.includes(sub)`: `sub` occurs as a substring of `s`. -/
def strContainsSub (s sub : String) : Bool :=
  (List.range (s.data.length + 1)).any
    (fun i => sub.data.isPrefixOf (s.data.drop i))

/-- `topicLabel.split('|').filter(Boolean)`: split on every `'|'` and drop
the empty pieces. -/
def splitTags (s : String) : List String :=
  (s.splitOn "|").filter (fun x => x != "")

/-! ### `parseTXBannerData` -/

/-- The normalized banner item built by `parseTXBannerData`. The fields
copied from `params` keep their JavaScript value type; the constants get
their concrete types. -/
structure BannerItem where
  id : Int
  title : JVal
  subtitle : JVal
  tags : List String
  backdrop_path : JVal
  poster_path : JVal
  release_date : String
  overview : JVal
  vote_average : Int
  media_type : String
  genre_ids : List Int

/-- `data?.data?.CardList`. -/
def cardListOf (data : JVal) : JVal := optProp (optProp data "data") "CardList"

/-- `pcShelvesCard?.children_list?.list?.cards`. -/
def nestedCardsOf (pc : JVal) : JVal :=
  optProp (optProp (optProp pc "children_list") "list") "cards"

/-- Would `card.type === 'pc_shelves'` evaluate to `true`? -/
def isPcShelvesCard (c : JVal) : Bool :=
  isStrVal (optProp c "type") "pc_shelves"

/-- Is the value an array (`Array.isArray`)? -/
def isJArr : JVal → Bool
  | .jarr _ => true
  | _ => false

/-- `cardList.find((card) => card.type === 'pc_shelves')`: the property
access throws on a `null`/`undefined` element. -/
def findShelvesCardE : List JVal → Except Unit (Option JVal)
  | [] => .ok none
  | c :: rest =>
      match getPropE c "type" with
      | .error e => .error e
      | .ok t =>
          if isStrVal t "pc_shelves" then .ok (some c)
          else findShelvesCardE rest

/-- `cards.filter((card) => card.params)`. -/
def filterParamsE : List JVal → Except Unit (List JVal)
  | [] => .ok []
  | c :: rest =>
      match getPropE c "params" with
      | .error e => .error e
      | .ok p =>
          match filterParamsE rest with
          | .error e => .error e
          | .ok tail => .ok (if truthy p then c :: tail else tail)

/-- The `.map` callback: normalize one card (`index` is the position in the
filtered list). `topicLabel.split` throws when `topic_label` holds a truthy
non-string. -/
def mapCardE (card : JVal) (index : Nat) : Except Unit BannerItem :=
  match getPropE card "params" with
  | .error e => .error e
  | .ok params =>
    match getPropE params "title" with
    | .error e => .error e
    | .ok tRaw =>
      let title := jsOr tRaw (.jstr "")
      match getPropE params "priority_sub_title" with
      | .error e => .error e
      | .ok pst =>
        match (if truthy pst then Except.ok pst
               else
                 match getPropE params "rec_normal_reason" with
                 | .error e => .error e
                 | .ok rnr => .ok (jsOr rnr (.jstr ""))) with
        | .error e => .error e
        | .ok subtitle =>
          match getPropE params "topic_label" with
          | .error e => .error e
          | .ok tlRaw =>
            let topicLabel := jsOr tlRaw (.jstr "")
            match (if truthy topicLabel then
                     match topicLabel with
                     | .jstr s => Except.ok (splitTags s)
                     | _ => Except.error ()
                   else .ok []) with
            | .error e => .error e
            | .ok tags =>
              match getPropE params "priority_image_url" with
              | .error e => .error e
              | .ok biRaw =>
                let backdropPath := jsOr biRaw (.jstr "")
                .ok ⟨(index : Int) + 1, title, subtitle, tags, backdropPath,
                  backdropPath, "", subtitle, 0, "tv", []⟩

/-- `.map` over the filtered cards with the running index. -/
def mapCardsE : List JVal → Nat → Except Unit (List BannerItem)
  | [], _ => .ok []
  | c :: rest, i =>
      match mapCardE c i with
      | .error e => .error e
      | .ok item =>
          match mapCardsE rest (i + 1) with
          | .error e => .error e
          | .ok tail => .ok (item :: tail)

/-- The final `.filter` predicate: drop items with falsy title or backdrop,
then drop titles for which `title.includes('免费合集')` is true. `includes`
is `String.prototype.includes` (substring) on strings and
`Array.prototype.includes` (element equality, never throwing) on arrays;
on the remaining truthy values (numbers, booleans, plain objects) no
callable `includes` exists and the call throws a `TypeError`. -/
def keepItemE (item : BannerItem) : Except Unit Bool :=
  if truthy item.title = false then .ok false
  else if truthy item.backdrop_path = false then .ok false
  else
    match item.title with
    | .jstr s => .ok (!(strContainsSub s "免费合集"))
    | .jarr es => .ok (!(es.any (fun e => isStrVal e "免费合集")))
    | _ => .error ()

/-- The final `.filter` pass. -/
def finalFilterE : List BannerItem → Except Unit (List BannerItem)
  | [] => .ok []
  | it :: rest =>
      match keepItemE it with
      | .error e => .error e
      | .ok keep =>
          match finalFilterE rest with
          | .error e => .error e
          | .ok tail => .ok (if keep then it :: tail else tail)

/-- The part of `parseTXBannerData` after the shelf card is found:
extract the nested card list, filter for `params`, map, final filter. -/
def parseTXStep2 (pc : JVal) : Except Unit (List BannerItem) :=
  match nestedCardsOf pc with
  | .jarr cards =>
      match filterParamsE cards with
      | .error e => .error e
      | .ok filtered =>
          match mapCardsE filtered 0 with
          | .error e => .error e
          | .ok mapped => finalFilterE mapped
  | _ => .ok []

/-- The shelf-card search step of `parseTXBannerData`. -/
def parseTXStep1 (cl : List JVal) : Except Unit (List BannerItem) :=
  match findShelvesCardE cl with
  | .error e => .error e
  | .ok none => .ok []
  | .ok (some pcShelvesCard) => parseTXStep2 pcShelvesCard

/-- The `try` body of `parseTXBannerData`. -/
def parseTXGo (data : JVal) : Except Unit (List BannerItem) :=
  match cardListOf data with
  | .jarr cl => parseTXStep1 cl
  | _ => .ok []

/-- `parseTXBannerData`: the `catch` clause maps any thrown error to the
empty list. -/
def parseTXBannerData (data : JVal) : List BannerItem :=
  match parseTXGo data with
  | .ok l => l
  | .error _ => []

/-! ### Lemmas about `parseTXBannerData` -/

theorem getPropE_ok {c : JVal} {k : String} {t : JVal}
    (h : getPropE c k = .ok t) : optProp c k = t := by
  cases c <;> simp [getPropE] at h <;> exact h

/-- When no element would satisfy `card.type === 'pc_shelves'`, the `find`
either returns `undefined` or throws (on a `null`/`undefined` element
encountered on the way). -/
theorem findShelvesCardE_of_none (cl : List JVal)
    (h : ∀ c ∈ cl, isPcShelvesCard c = false) :
    findShelvesCardE cl = .ok none ∨ findShelvesCardE cl = .error () := by
  induction cl with
  | nil => exact Or.inl rfl
  | cons c rest ih =>
      cases ht : getPropE c "type" with
      | error e =>
          right
          cases e
          unfold findShelvesCardE
          rw [ht]
      | ok t =>
          have hns : isStrVal t "pc_shelves" = false := by
            have h1 := h c (List.mem_cons_self c rest)
            unfold isPcShelvesCard at h1
            rwa [getPropE_ok ht] at h1
          have hstep : findShelvesCardE (c :: rest) = findShelvesCardE rest
            := by
            conv_lhs => rw [findShelvesCardE]
            rw [ht]
            show (if isStrVal t "pc_shelves" = true then Except.ok (some c)
                else findShelvesCardE rest) = findShelvesCardE rest
            rw [hns]
            simp
          rw [hstep]
          exact ih (fun c' hc' => h c' (List.mem_cons_of_mem c hc'))

/-- Any successful run of the parser body yields either the empty list or
the output of the final filter. -/
theorem parseTXGo_ok_shape {data : JVal} {l : List BannerItem}
    (h : parseTXGo data = .ok l) :
    l = [] ∨ ∃ mapped, finalFilterE mapped = .ok l := by
  unfold parseTXGo at h
  split at h
  case _ cl =>
    unfold parseTXStep1 at h
    split at h
    · exact absurd h (by simp)
    · left
      injection h with h'
      exact h'.symm
    case _ pc =>
      unfold parseTXStep2 at h
      split at h
      case _ cards =>
        split at h
        · exact absurd h (by simp)
        · split at h
          · exact absurd h (by simp)
          · exact Or.inr ⟨_, h⟩
      · left
        injection h with h'
        exact h'.symm
  · left
    injection h with h'
    exact h'.symm

/-- Every item kept by the final filter has truthy title and backdrop, and
its title is either a non-empty string free of the marker substring or an
array none of whose elements is the marker string. -/
theorem keepItemE_true {it : BannerItem} (h : keepItemE it = .ok true) :
    truthy it.title = true ∧ truthy it.backdrop_path = true ∧
    ((∃ s, it.title = .jstr s ∧ s ≠ "" ∧
        strContainsSub s "免费合集" = false) ∨
     (∃ es, it.title = .jarr es ∧
        ∀ e ∈ es, isStrVal e "免费合集" = false)) := by
  unfold keepItemE at h
  by_cases h1 : truthy it.title = false
  · rw [if_pos h1] at h
    simp at h
  · rw [if_neg h1] at h
    by_cases h2 : truthy it.backdrop_path = false
    · rw [if_pos h2] at h
      simp at h
    · rw [if_neg h2] at h
      refine ⟨by simpa using h1, by simpa using h2, ?_⟩
      cases ht : it.title with
      | jstr s =>
          rw [ht] at h
          left
          refine ⟨s, rfl, ?_, ?_⟩
          · rw [ht] at h1
            simpa [truthy] using h1
          · injection h with h'
            simpa using h'.symm
      | jarr es =>
          rw [ht] at h
          right
          refine ⟨es, rfl, ?_⟩
          injection h with h'
          have hany : es.any (fun e => isStrVal e "免费合集") = false := by
            simpa using h'.symm
          intro e he
          rw [List.any_eq_false] at hany
          simpa using hany e he
      | jnull => rw [ht] at h; exact absurd h (by simp)
      | jundefined => rw [ht] at h; exact absurd h (by simp)
      | jbool b => rw [ht] at h; exact absurd h (by simp)
      | jnum n => rw [ht] at h; exact absurd h (by simp)
      | jobj fs => rw [ht] at h; exact absurd h (by simp)

/-- Membership in the final filter's output forces the keep predicate. -/
theorem finalFilterE_mem {l out : List BannerItem}
    (h : finalFilterE l = .ok out) :
    ∀ it ∈ out, keepItemE it = .ok true := by
  induction l generalizing out with
  | nil =>
      unfold finalFilterE at h
      injection h with h'
      subst h'
      intro it hit
      simp at hit
  | cons a rest ih =>
      unfold finalFilterE at h
      split at h
      · exact absurd h (by simp)
      case _ keep hk =>
        split at h
        · exact absurd h (by simp)
        case _ tail hf =>
          injection h with h'
          subst h'
          intro it hit
          cases keep with
          | false =>
              simp only [Bool.false_eq_true, if_false] at hit
              exact ih hf it hit
          | true =>
              simp only [if_true] at hit
              rcases List.mem_cons.mp hit with hit | hit
              · subst hit; exact hk
              · exact ih hf it hit

/-! ### Claims C3, C4: the TX source adapter -/

/-- C3: `parseTXBannerData` is total (it is a function into lists, and any
thrown error is caught and mapped to `[]`), and it returns the empty list
whenever the top-level card list is missing or not an array, or no card
satisfies `card.type === 'pc_shelves'`, or the found card's nested card
list is missing or not an array. -/
theorem claim_C3_adapter_total (data : JVal) :
    (∀ err, parseTXGo data = .error err → parseTXBannerData data = []) ∧
    (isJArr (cardListOf data) = false → parseTXBannerData data = []) ∧
    (∀ cl, cardListOf data = .jarr cl →
      (∀ c ∈ cl, isPcShelvesCard c = false) → parseTXBannerData data = []) ∧
    (∀ cl pc, cardListOf data = .jarr cl →
      findShelvesCardE cl = .ok (some pc) →
      isJArr (nestedCardsOf pc) = false → parseTXBannerData data = []) := by
  refine ⟨?_, ?_, ?_, ?_⟩
  · intro err h
    unfold parseTXBannerData
    rw [h]
  · intro h
    unfold parseTXBannerData parseTXGo
    cases hcl : cardListOf data <;> first
      | rfl
      | (rw [hcl] at h; simp [isJArr] at h)
  · intro cl hcl hnone
    have h1 : parseTXGo data = parseTXStep1 cl := by
      unfold parseTXGo
      rw [hcl]
    have hgo : parseTXGo data = .ok [] ∨ parseTXGo data = .error () := by
      rw [h1]
      rcases findShelvesCardE_of_none cl hnone with hf | hf
      · left
        unfold parseTXStep1
        rw [hf]
      · right
        unfold parseTXStep1
        rw [hf]
    unfold parseTXBannerData
    rcases hgo with hgo | hgo <;> rw [hgo]
  · intro cl pc hcl hfind hnarr
    have h1 : parseTXGo data = parseTXStep1 cl := by
      unfold parseTXGo
      rw [hcl]
    have h2 : parseTXStep1 cl = parseTXStep2 pc := by
      unfold parseTXStep1
      rw [hfind]
    have hgo : parseTXGo data = .ok [] := by
      rw [h1, h2]
      unfold parseTXStep2
      cases hnc : nestedCardsOf pc <;> first
        | rfl
        | (rw [hnc] at hnarr; simp [isJArr] at hnarr)
    unfold parseTXBannerData
    rw [hgo]

/-- C3 witness: a `null` payload, and a payload whose card list has no
`pc_shelves` card, both parse to the empty list. -/
theorem claim_C3_witness :
    parseTXBannerData .jnull = [] ∧
    parseTXBannerData
        (.jobj [("data", .jobj [("CardList",
          .jarr [.jobj [("type", .jstr "other")]])])]) = [] :=
  ⟨(claim_C3_adapter_total .jnull).2.1 rfl,
   (claim_C3_adapter_total
      (.jobj [("data", .jobj [("CardList",
        .jarr [.jobj [("type", .jstr "other")]])])])).2.2.1
     [.jobj [("type", .jstr "other")]] rfl
     (by
       intro c hc
       rw [List.mem_singleton] at hc
       subst hc
       rfl)⟩

/-- Payload for the C4 counterexample: the card's `params.title` is the
array `["ab免费合集"]` — truthy, and `Array.prototype.includes('免费合集')`
compares whole elements, so it is `false` and the item survives the filter
even though its title's text contains the promotional marker. -/
def arrTitlePayload : JVal :=
  .jobj [("data", .jobj [("CardList", .jarr [
    .jobj [("type", .jstr "pc_shelves"),
      ("children_list", .jobj [("list", .jobj [("cards", .jarr [
        .jobj [("params", .jobj [("title", .jarr [.jstr "ab免费合集"]),
          ("priority_image_url",
            .jstr "https://img.example/x.jpg")])]])])])]])])]

/-- The item the counterexample payload parses to. -/
def arrTitleItem : BannerItem :=
  ⟨1, .jarr [.jstr "ab免费合集"], .jstr "", [],
    .jstr "https://img.example/x.jpg", .jstr "https://img.example/x.jpg",
    "", .jstr "", 0, "tv", []⟩

/-- C4: the claim as stated is false. `parseTXBannerData` can return an
item whose title is not a string at all and whose text contains the
promotional marker: with `params.title = ["ab免费合集"]` the truthiness
checks pass and `Array.prototype.includes` compares elements (no throw, no
substring search), so the item survives. -/
theorem claim_C4_counterexample :
    arrTitleItem ∈ parseTXBannerData arrTitlePayload ∧
    (∀ s : String, arrTitleItem.title ≠ .jstr s) ∧
    arrTitleItem.title = .jarr [.jstr "ab免费合集"] ∧
    strContainsSub "ab免费合集" "免费合集" = true := by
  refine ⟨?_, ?_, rfl, by decide⟩
  · rw [show parseTXBannerData arrTitlePayload = [arrTitleItem] from rfl]
    exact List.mem_singleton.mpr rfl
  · intro s hs
    exact JVal.noConfusion hs

/-- C4 (amended): every item `parseTXBannerData` returns has a truthy title
and a truthy backdrop image reference, and its title is either a non-empty
string that does not contain the promotional marker `免费合集` as a
substring, or an array none of whose elements is the marker string (an
array element may still contain the marker as a substring). -/
theorem claim_C4_adapter_filtering (data : JVal) (item : BannerItem)
    (h : item ∈ parseTXBannerData data) :
    truthy item.title = true ∧ truthy item.backdrop_path = true ∧
    ((∃ s, item.title = .jstr s ∧ s ≠ "" ∧
        strContainsSub s "免费合集" = false) ∨
     (∃ es, item.title = .jarr es ∧
        ∀ e ∈ es, isStrVal e "免费合集" = false)) := by
  unfold parseTXBannerData at h
  cases hgo : parseTXGo data with
  | error e =>
      rw [hgo] at h
      simp at h
  | ok l =>
      rw [hgo] at h
      rcases parseTXGo_ok_shape hgo with rfl | ⟨mapped, hf⟩
      · simp at h
      · exact keepItemE_true (finalFilterE_mem hf item h)

/-- Payload for the C4 witness: one well-formed shelf card. -/
def txDemoPayload : JVal :=
  .jobj [("data", .jobj [("CardList", .jarr [
    .jobj [("type", .jstr "pc_shelves"),
      ("children_list", .jobj [("list", .jobj [("cards", .jarr [
        .jobj [("params", .jobj [("title", .jstr "剧集A"),
          ("priority_image_url",
            .jstr "https://img.example/x.jpg")])]])])])]])])]

/-- The single item the C4 witness payload parses to. -/
def txDemoItem : BannerItem :=
  ⟨1, .jstr "剧集A", .jstr "", [], .jstr "https://img.example/x.jpg",
    .jstr "https://img.example/x.jpg", "", .jstr "", 0, "tv", []⟩

/-- C4 witness: the item parsed from the demo payload satisfies the
filtering guarantees of the amended claim. -/
theorem claim_C4_witness :
    truthy txDemoItem.title = true ∧
    truthy txDemoItem.backdrop_path = true ∧
    ((∃ s, txDemoItem.title = .jstr s ∧ s ≠ "" ∧
        strContainsSub s "免费合集" = false) ∨
     (∃ es, txDemoItem.title = .jarr es ∧
        ∀ e ∈ es, isStrVal e "免费合集" = false)) :=
  claim_C4_adapter_filtering txDemoPayload txDemoItem
    (by
      rw [show parseTXBannerData txDemoPayload = [txDemoItem] from rfl]
      exact List.mem_singleton.mpr rfl)

/-! ### Client-side persistent cache (`fetchTrending` in the carousel) -/

/-- A string stored under the carousel's fixed localStorage key, abstracted
by its parse outcome: either it is the JSON encoding of a value, or it does
not parse. -/
inductive StoredStr where
  | jsonOf (v : JVal)
  | invalid

/-- `JSON.parse`, throwing on an unparseable string. -/
def jsonParse : StoredStr → Except Unit JVal
  | .jsonOf v => .ok v
  | .invalid => .error ()

/-- `LOCALSTORAGE_DURATION = 24 * 60 * 60 * 1000` (one day). -/
def LOCALSTORAGE_DURATION : Int := 24 * 60 * 60 * 1000

/-- `ToNumber` as used in `now - timestamp`: numbers are themselves, `null`
is 0, booleans are 0/1, `undefined` is `NaN` (`none`); strings parse as
optionally-signed decimal integers after trimming (blank is 0, anything
else is `NaN` — this model's numbers are integers). Arrays and objects are
modelled as `NaN`; the `ToPrimitive` coercion of single-element arrays is
not modelled (the write path only ever stores a number here). -/
def jsToNumber : JVal → Option Int
  | .jnum n => some n
  | .jnull => some 0
  | .jbool b => some (if b then 1 else 0)
  | .jundefined => none
  | .jstr s =>
      match (s.data.dropWhile Char.isWhitespace).reverse.dropWhile
          Char.isWhitespace |>.reverse with
      | [] => some 0
      | '-' :: ds =>
          if ds ≠ [] ∧ ds.all Char.isDigit then some (-(digitsVal ds : Int))
          else none
      | '+' :: ds =>
          if ds ≠ [] ∧ ds.all Char.isDigit then some (digitsVal ds)
          else none
      | ds => if ds.all Char.isDigit then some (digitsVal ds) else none
  | .jarr _ => none
  | .jobj _ => none

/-- The JSON object the write path stores:
`{data: result.list, timestamp: Date.now()}`. -/
def cachePayload (d : JVal) (ts : Int) : JVal :=
  .jobj [("data", d), ("timestamp", .jnum ts)]

/-- A trending API response `{code: 200, list}` with an array list. -/
def mkTrendingResp (items : List JVal) : JVal :=
  .jobj [("code", .jnum 200), ("list", .jarr items)]

/-- `.length` property access: throws on `null`/`undefined`, the length of
arrays and strings, `undefined` otherwise. -/
def lengthProp : JVal → Except Unit (Option Int)
  | .jnull => .error ()
  | .jundefined => .error ()
  | .jarr l => .ok (some (l.length : Int))
  | .jstr s => .ok (some (s.length : Int))
  | _ => .ok none

/-- `result.code === 200 && result.list.length > 0`: yields the list value
when the check passes (`undefined > 0` is false). -/
def checkApiResult (result : JVal) : Except Unit (Option JVal) :=
  match getPropE result "code" with
  | .error e => .error e
  | .ok code =>
      if isNumVal code 200 then
        match getPropE result "list" with
        | .error e => .error e
        | .ok listVal =>
            match lengthProp listVal with
            | .error e => .error e
            | .ok (some n) => .ok (if 0 < n then some listVal else none)
            | .ok none => .ok none
      else .ok none

/-- Result of one run of `fetchTrending`: the argument of `setItems` when it
was called, the storage cell under the fixed key afterwards, and whether the
network was consulted. -/
structure FetchOutcome where
  items : Option JVal
  stored : Option StoredStr
  usedNetwork : Bool

/-- The network branch of `fetchTrending`: a rejected fetch hits the outer
catch (items untouched); on `{code: 200}` with a non-empty list the items
are set and written through (`writeOk` models `localStorage.setItem`
succeeding; quota errors are swallowed, leaving the cell unchanged). -/
def fetchNetworkOk (stored : Option StoredStr) (now : Int) (result : JVal)
    (writeOk : Bool) : FetchOutcome :=
  match checkApiResult result with
  | .error _ => ⟨none, stored, true⟩
  | .ok none => ⟨none, stored, true⟩
  | .ok (some listVal) =>
      ⟨some listVal,
       if writeOk then some (.jsonOf (cachePayload listVal now))
       else stored,
       true⟩

def fetchNetwork (stored : Option StoredStr) (now : Int)
    (apiResult : Except Unit JVal) (writeOk : Bool) : FetchOutcome :=
  match apiResult with
  | .error _ => ⟨none, stored, true⟩
  | .ok result => fetchNetworkOk stored now result writeOk

/-- The cache-read attempt at the top of `fetchTrending`: `some data` when
the stored string parses, destructuring `{data, timestamp}` does not throw
(it throws exactly on `null`/`undefined`, caught by the inner catch), and
`now - timestamp < LOCALSTORAGE_DURATION`. Every other outcome falls
through to the network. -/
def cacheRead (stored : Option StoredStr) (now : Int) : Option JVal :=
  match stored with
  | none => none
  | some s =>
      match jsonParse s with
      | .error _ => none
      | .ok .jnull => none
      | .ok .jundefined => none
      | .ok v =>
          match jsToNumber (optProp v "timestamp") with
          | some ts =>
              if now - ts < LOCALSTORAGE_DURATION then some (optProp v "data")
              else none
          | none => none

/-- `fetchTrending`: serve a fresh parsed cache entry without touching the
network, otherwise fetch from the API. -/
def fetchTrending (stored : Option StoredStr) (now : Int)
    (apiResult : Except Unit JVal) (writeOk : Bool) : FetchOutcome :=
  match cacheRead stored now with
  | some d => ⟨some d, stored, false⟩
  | none => fetchNetwork stored now apiResult writeOk

/-- The network branch always reports having used the network. -/
theorem fetchNetwork_usedNetwork (stored : Option StoredStr) (now : Int)
    (api : Except Unit JVal) (w : Bool) :
    (fetchNetwork stored now api w).usedNetwork = true := by
  cases api with
  | error e => rfl
  | ok r =>
      show (fetchNetworkOk stored now r w).usedNetwork = true
      unfold fetchNetworkOk
      cases hc : checkApiResult r with
      | error e => rfl
      | ok o => cases o <;> rfl

/-- A well-formed `{code: 200, list}` response with a non-empty list passes
the check. -/
theorem checkApiResult_mk (items : List JVal) (hne : items ≠ []) :
    checkApiResult (mkTrendingResp items) = .ok (some (.jarr items)) := by
  have h0 : (0 : Int) < (items.length : Int) := by
    have := List.length_pos.mpr hne
    omega
  show Except.ok (if (0 : Int) < (items.length : Int)
      then some (JVal.jarr items) else none) =
    Except.ok (some (JVal.jarr items))
  rw [if_pos h0]

/-! ### Claim C7: the client-side persistent cache -/

/-- C7: after a successful fetch of a non-empty item list, the list is set
and written through under the fixed key; reading that cell back within the
24-hour TTL yields exactly the same item list without touching the network;
and a corrupted (unparseable) stored value behaves as a miss: the run
proceeds to the network exactly as the corrupt-cell run of `fetchNetwork`
(the parse exception is caught, not propagated). -/
theorem claim_C7_client_cache (items : List JVal) (now now2 : Int)
    (api2 : Except Unit JVal) (w2 : Bool)
    (hne : items ≠ []) (hfresh : now2 - now < LOCALSTORAGE_DURATION) :
    (fetchTrending none now (.ok (mkTrendingResp items)) true).items
        = some (.jarr items) ∧
    (fetchTrending none now (.ok (mkTrendingResp items)) true).stored
        = some (.jsonOf (cachePayload (.jarr items) now)) ∧
    fetchTrending (some (.jsonOf (cachePayload (.jarr items) now))) now2
        api2 w2
      = ⟨some (.jarr items),
         some (.jsonOf (cachePayload (.jarr items) now)), false⟩ ∧
    (∀ (api : Except Unit JVal) (w : Bool),
      fetchTrending (some StoredStr.invalid) now api w =
        fetchNetwork (some StoredStr.invalid) now api w ∧
      (fetchTrending (some StoredStr.invalid) now api w).usedNetwork = true)
    := by
  have hnet : fetchTrending none now (.ok (mkTrendingResp items)) true =
      ⟨some (.jarr items), some (.jsonOf (cachePayload (.jarr items) now)),
       true⟩ := by
    show fetchNetworkOk none now (mkTrendingResp items) true = _
    unfold fetchNetworkOk
    rw [checkApiResult_mk items hne]
    rfl
  refine ⟨by rw [hnet], by rw [hnet], ?_, ?_⟩
  · have hread : cacheRead
        (some (.jsonOf (cachePayload (.jarr items) now))) now2 =
        if now2 - now < LOCALSTORAGE_DURATION then some (.jarr items)
        else none := rfl
    unfold fetchTrending
    rw [hread, if_pos hfresh]
  · intro api w
    constructor
    · unfold fetchTrending
      rw [show cacheRead (some StoredStr.invalid) now = none from rfl]
    · unfold fetchTrending
      rw [show cacheRead (some StoredStr.invalid) now = none from rfl]
      exact fetchNetwork_usedNetwork (some StoredStr.invalid) now api w

/-- C7 witness: concrete one-element list, stale-free timestamps, a
rejecting second fetch. -/
theorem claim_C7_witness :
    (fetchTrending none 0 (.ok (mkTrendingResp [.jnum 1])) true).items
        = some (.jarr [.jnum 1]) ∧
    (fetchTrending none 0 (.ok (mkTrendingResp [.jnum 1])) true).stored
        = some (.jsonOf (cachePayload (.jarr [.jnum 1]) 0)) ∧
    fetchTrending (some (.jsonOf (cachePayload (.jarr [.jnum 1]) 0))) 5
        (.error ()) false
      = ⟨some (.jarr [.jnum 1]),
         some (.jsonOf (cachePayload (.jarr [.jnum 1]) 0)), false⟩ ∧
    (∀ (api : Except Unit JVal) (w : Bool),
      fetchTrending (some StoredStr.invalid) 0 api w =
        fetchNetwork (some StoredStr.invalid) 0 api w ∧
      (fetchTrending (some StoredStr.invalid) 0 api w).usedNetwork = true) :=
  claim_C7_client_cache [.jnum 1] 0 5 (.error ()) false
    (by simp) (by decide)

end MoonTV
